import Mathlib

/-!
Shallow embedding of the per-guild playback controller of the Discord music
bot (src/bot.py, class MusicPlayer), together with theorems settling the
frozen claims about it.

Modelling conventions:

* A queued item is its metadata dict; only the optional "title" key is
  observable (format_queue).  The FFmpeg audio source carried alongside is an
  opaque handle whose identity never matters, so an entry is just the Track.
* The voice client is `Option VCStatus`: `none` models `self.voice_client is
  None`; `some st` a connected client whose transport status is `st`.
* External calls to the transport (`voice_client.play`, `voice_client.stop`,
  `voice_client.disconnect`) are recorded as an ordered effect list.
* Python exceptions and blocked awaits are modelled by `PyResult`:
  `attrError` is an unhandled `AttributeError` from dereferencing a `None`
  voice client; `deadlock` is an `await` of `self.lock.acquire()` while the
  same task already holds `self.lock` (`asyncio.Lock` is not reentrant, so
  that await never completes).
* `_play_next` takes a `lockHeld` flag: `False` when entered from the
  completion-callback bridge (the lock is free), `True` when entered from
  `add_track`, which still holds the lock across `await self._play_next()`.
-/

namespace MusicPlayer

/-- A track descriptor: the yt-dlp info dict, of which only the optional
title is observable to the queue engine. -/
structure Track where
  title : Option String
deriving DecidableEq, Repr

instance : Inhabited Track := ⟨⟨none⟩⟩

/-- Transport status of a connected voice client, as reported by
is_playing / is_paused. -/
inductive VCStatus
  | idle
  | playing
  | paused
deriving DecidableEq, Repr

/-- State of one guild's MusicPlayer: the queue, the current index and the
optional voice client (with its transport status). -/
structure PlayerState where
  queue : List Track
  current_index : Int
  voice_client : Option VCStatus
deriving DecidableEq, Repr

/-- Requests issued to the external voice transport. -/
inductive Effect
  | startStream (idx : Nat) (t : Track)
  | stopStream
  | disconnect
deriving DecidableEq, Repr

/-- Outcome of running one of the async methods: normal return, an unhandled
AttributeError from a None voice client, or a permanently blocked await on
the non-reentrant asyncio.Lock. -/
inductive PyResult (α : Type)
  | ok (a : α)
  | attrError
  | deadlock
deriving DecidableEq, Repr

/-- MusicPlayer.stop: disconnect the voice client if connected, clear the
queue, reset the index to -1 and drop the client.  Never fails. -/
def stop (s : PlayerState) : PlayerState × List Effect :=
  (⟨[], -1, none⟩, if s.voice_client.isSome then [Effect.disconnect] else [])

/-- MusicPlayer's play-next step: acquire the lock (blocking forever if
this task already holds it), increment current_index, and either start the
entry at the new index or, when out of bounds, run stop. -/
def play_next (lockHeld : Bool) (s : PlayerState) : PyResult (PlayerState × List Effect) :=
  if lockHeld then
    PyResult.deadlock
  else if 0 ≤ s.current_index + 1 ∧ s.current_index + 1 < (s.queue.length : Int) then
    match s.voice_client with
    | none => PyResult.attrError
    | some _ =>
        PyResult.ok
          ({ s with current_index := s.current_index + 1, voice_client := some VCStatus.playing },
            [Effect.startStream (s.current_index + 1).toNat
              (s.queue.getD (s.current_index + 1).toNat default)])
  else
    PyResult.ok (stop { s with current_index := s.current_index + 1 })

/-- MusicPlayer.add_track: under the lock, append the entry, then if the
voice client is neither playing nor paused await play_next, still holding
the lock. -/
def add_track (s : PlayerState) (info : Track) : PyResult (PlayerState × List Effect) :=
  let s1 : PlayerState := { s with queue := s.queue ++ [info] }
  match s1.voice_client with
  | none => PyResult.attrError
  | some st =>
      if st ≠ VCStatus.playing ∧ st ≠ VCStatus.paused then
        play_next true s1
      else
        PyResult.ok (s1, [])

/-- MusicPlayer.previous: under the lock, if current_index > 0 move back two
positions and stop the current stream (the completion callback will
re-increment); otherwise return False. -/
def previous (s : PlayerState) : PyResult (PlayerState × List Effect × Bool) :=
  if 0 < s.current_index then
    match s.voice_client with
    | none => PyResult.attrError
    | some _ =>
        PyResult.ok ({ s with current_index := s.current_index - 2 }, [Effect.stopStream], true)
  else
    PyResult.ok (s, [], false)

/-- The completion-callback bridge (after_playback): ignores the error value
and re-enters play_next on the bot loop with the lock free. -/
def after_playback (error : Option String) (s : PlayerState) :
    PyResult (PlayerState × List Effect) :=
  play_next false s

/-- One rendered queue line: marker, 1-based position, title (with the
"Unknown title" default). -/
def queue_line (current_index : Int) (i : Nat) (t : Track) : String :=
  let marker := if (i : Int) = current_index then "-> " else "   "
  marker ++ (toString (i + 1) ++ (". " ++ t.title.getD "Unknown title"))

/-- The list of rendered lines, one per queue entry in order. -/
def queue_lines (s : PlayerState) : List String :=
  s.queue.enum.map fun p => queue_line s.current_index p.1 p.2

/-- MusicPlayer.format_queue: placeholder when empty, otherwise the lines
joined with newlines. -/
def format_queue (s : PlayerState) : String :=
  if s.queue = [] then "Queue is empty."
  else String.intercalate "\n" (queue_lines s)

/-- A line carries the current-track marker when it starts with the marker
string. -/
def lineMarked (l : String) : Prop := ∃ r, l = "-> " ++ r

/-- Sample tracks for concrete evaluations. -/
def tA : Track := ⟨some "A"⟩

def tB : Track := ⟨some "B"⟩

def tC : Track := ⟨some "C"⟩

/-- Helper: a string starting with three spaces never equals one starting
with the current-track marker. -/
theorem space_append_ne (a b : String) : "   " ++ a ≠ "-> " ++ b := by
  intro h
  have h2 : (' ' :: ' ' :: ' ' :: a.data) = ('-' :: '>' :: ' ' :: b.data) :=
    congrArg String.data h
  simp at h2

/-- Helper: a rendered line carries the marker exactly when its index is the
current index. -/
theorem lineMarked_queue_line (c : Int) (i : Nat) (t : Track) :
    lineMarked (queue_line c i t) ↔ (i : Int) = c := by
  simp only [lineMarked, queue_line]
  by_cases h : (i : Int) = c
  · rw [if_pos h]
    exact iff_of_true ⟨_, rfl⟩ h
  · rw [if_neg h]
    exact iff_of_false (fun hr => space_append_ne _ _ hr.choose_spec) h

/-- Claim C1: the spec says add_track on an idle connection triggers
play_next in the same critical section and completes with cursor 0 and one
transport-start for entry 0.  In the code, add_track still holds the
non-reentrant asyncio.Lock when it awaits play_next, so the nested lock
acquisition blocks forever: on an empty idle queue the call deadlocks, the
cursor never reaches 0 and no transport-start is ever issued. -/
theorem add_track_idle_deadlocks :
    add_track ⟨[], -1, some VCStatus.idle⟩ tA = PyResult.deadlock := rfl

/-- Claim C2: with a connected voice client and cursor at the last entry
(length - 1), the next completion-driven play_next goes out of bounds and
runs stop: the connection is released, the entries are cleared, the cursor
is reset to -1, and no transport-start (in particular none with an
out-of-range index) is issued. -/
theorem play_next_at_last_entry_stops (s : PlayerState)
    (hvc : s.voice_client.isSome)
    (hidx : s.current_index = (s.queue.length : Int) - 1) :
    play_next false s = PyResult.ok (⟨[], -1, none⟩, [Effect.disconnect]) := by
  have hguard : ¬(0 ≤ s.current_index + 1 ∧ s.current_index + 1 < (s.queue.length : Int)) := by
    omega
  simp [play_next, stop, hguard, hvc]

/-- Witness for C2: from a two-entry queue with cursor 1, the completion
signal disconnects and resets the state. -/
theorem play_next_at_last_entry_stops_witness :
    play_next false ⟨[tA, tB], 1, some VCStatus.playing⟩ =
      PyResult.ok (⟨[], -1, none⟩, [Effect.disconnect]) :=
  play_next_at_last_entry_stops ⟨[tA, tB], 1, some VCStatus.playing⟩ (by decide) (by decide)

/-- Claim C3: from any in-bounds cursor c > 0 with an active stream,
previous accepts (returns true), sets the cursor to c - 2 and stops the
stream; the resulting completion signal re-enters play_next, which
increments the cursor to c - 1 and requests a transport-start for entry
c - 1 — net effect: moved back exactly one position. -/
theorem previous_then_completion_net_back_one (s : PlayerState)
    (h0 : 0 < s.current_index)
    (hlen : s.current_index < (s.queue.length : Int))
    (hvc : s.voice_client = some VCStatus.playing) :
    previous s =
      PyResult.ok ({ s with current_index := s.current_index - 2 }, [Effect.stopStream], true) ∧
    play_next false { s with current_index := s.current_index - 2 } =
      PyResult.ok
        ({ s with current_index := s.current_index - 1, voice_client := some VCStatus.playing },
          [Effect.startStream (s.current_index - 1).toNat
            (s.queue.getD (s.current_index - 1).toNat default)]) := by
  constructor
  · simp [previous, h0, hvc]
  · have hg : 0 ≤ s.current_index - 2 + 1 ∧
        s.current_index - 2 + 1 < (s.queue.length : Int) := by omega
    have heq : s.current_index - 2 + 1 = s.current_index - 1 := by omega
    simp only [play_next, Bool.false_eq_true, if_false, hvc]
    rw [if_pos hg]
    simp only [heq]

/-- Witness for C3: from cursor 2 on a three-entry queue, previous ends (via
the completion signal) at cursor 1 with a transport-start for entry 1. -/
theorem previous_then_completion_net_back_one_witness :
    previous ⟨[tA, tB, tC], 2, some VCStatus.playing⟩ =
      PyResult.ok (⟨[tA, tB, tC], 0, some VCStatus.playing⟩, [Effect.stopStream], true) ∧
    play_next false ⟨[tA, tB, tC], 0, some VCStatus.playing⟩ =
      PyResult.ok (⟨[tA, tB, tC], 1, some VCStatus.playing⟩, [Effect.startStream 1 tB]) :=
  previous_then_completion_net_back_one ⟨[tA, tB, tC], 2, some VCStatus.playing⟩
    (by decide) (by decide) rfl

/-- Claim C4: a stale completion signal arriving after stop is a no-op: on
the post-stop state the bridge's play_next goes out of bounds, runs stop
again on the already-reset state, and returns the identical state with no
transport requests at all. -/
theorem stale_signal_after_stop_is_noop (e : Option String) (s : PlayerState) :
    after_playback e (stop s).1 = PyResult.ok ((stop s).1, []) := rfl

/-- Claim C5: previous returns false and leaves the state unchanged (no
transport requests) whenever the cursor is at most 0, and returns true
whenever the cursor is positive. -/
theorem previous_acceptance (s : PlayerState) (hvc : s.voice_client.isSome) :
    (s.current_index ≤ 0 → previous s = PyResult.ok (s, [], false)) ∧
    (0 < s.current_index →
      previous s =
        PyResult.ok ({ s with current_index := s.current_index - 2 }, [Effect.stopStream], true)) := by
  constructor
  · intro h
    have hn : ¬ 0 < s.current_index := by omega
    simp [previous, hn]
  · intro h
    rcases Option.isSome_iff_exists.mp hvc with ⟨st, hst⟩
    simp [previous, h, hst]

/-- Witness for C5: rejected with unchanged state at cursor 0; accepted at
cursor 1. -/
theorem previous_acceptance_witness :
    previous ⟨[tA], 0, some VCStatus.playing⟩ =
      PyResult.ok (⟨[tA], 0, some VCStatus.playing⟩, [], false) ∧
    previous ⟨[tA, tB], 1, some VCStatus.playing⟩ =
      PyResult.ok (⟨[tA, tB], -1, some VCStatus.playing⟩, [Effect.stopStream], true) :=
  ⟨(previous_acceptance ⟨[tA], 0, some VCStatus.playing⟩ (by decide)).1 (by decide),
    (previous_acceptance ⟨[tA, tB], 1, some VCStatus.playing⟩ (by decide)).2 (by decide)⟩

/-- Claim C6: add_track while the voice client is playing or paused appends
exactly one entry at the end and changes nothing else: the cursor and the
voice client are unchanged and no transport request is issued. -/
theorem add_track_while_active_appends_only (s : PlayerState) (t : Track)
    (hvc : s.voice_client = some VCStatus.playing ∨ s.voice_client = some VCStatus.paused) :
    add_track s t = PyResult.ok ({ s with queue := s.queue ++ [t] }, []) := by
  rcases hvc with h | h <;> simp [add_track, h]

/-- Witness for C6: adding a track while playing only appends. -/
theorem add_track_while_active_appends_only_witness :
    add_track ⟨[tA], 0, some VCStatus.playing⟩ tB =
      PyResult.ok (⟨[tA, tB], 0, some VCStatus.playing⟩, []) :=
  add_track_while_active_appends_only ⟨[tA], 0, some VCStatus.playing⟩ tB (Or.inl rfl)

/-- Claim C7: the spec says a concurrent add_track and completion signal
serialize with the cursor advanced exactly once and the new track not
skipped.  The lock does serialize them, and the order completion-first
behaves as specified (first two conjuncts); but in the order where
add_track acquires the lock after the stream has ended and before the
pending completion is processed, add_track observes an idle client and
awaits play_next while still holding the non-reentrant lock — a permanent
deadlock (third conjunct), after which the pending completion's play_next
also blocks on the lock forever. -/
theorem add_track_completion_race :
    play_next false ⟨[tA, tB], 0, some VCStatus.playing⟩ =
      PyResult.ok (⟨[tA, tB], 1, some VCStatus.playing⟩, [Effect.startStream 1 tB]) ∧
    add_track ⟨[tA, tB], 1, some VCStatus.playing⟩ tC =
      PyResult.ok (⟨[tA, tB, tC], 1, some VCStatus.playing⟩, []) ∧
    add_track ⟨[tA, tB], 0, some VCStatus.idle⟩ tC = PyResult.deadlock :=
  ⟨by decide, by decide, rfl⟩

/-- Claim C8: the completion bridge ignores the error value entirely: any
two completion signals for the same state, whatever errors they carry,
produce the identical transition, and no error-reporting effect exists. -/
theorem after_playback_ignores_error (e₁ e₂ : Option String) (s : PlayerState) :
    after_playback e₁ s = after_playback e₂ s := rfl

/-- Claim C9: format_queue returns the fixed placeholder on an empty queue;
on a non-empty queue it joins one line per entry, in insertion order, and a
line carries the current-track marker exactly when its index is the
cursor. -/
theorem format_queue_spec (s : PlayerState) :
    (s.queue = [] → format_queue s = "Queue is empty.") ∧
    (s.queue ≠ [] →
      (queue_lines s).length = s.queue.length ∧
      format_queue s = String.intercalate "\n" (queue_lines s) ∧
      ∀ i (hi : i < (queue_lines s).length),
        (lineMarked ((queue_lines s).get ⟨i, hi⟩) ↔ (i : Int) = s.current_index)) := by
  refine ⟨fun h => by simp [format_queue, h], fun h => ⟨?_, by simp [format_queue, h], ?_⟩⟩
  · simp [queue_lines]
  · intro i hi
    have hi2 : i < s.queue.length := by simpa [queue_lines] using hi
    have hget : (queue_lines s).get ⟨i, hi⟩ =
        queue_line s.current_index i (s.queue.get ⟨i, hi2⟩) := by
      simp [queue_lines, List.getElem_map, List.getElem_enum]
    rw [hget, lineMarked_queue_line]

/-- Witness for C9: on a three-entry queue with cursor 1, the rendering
joins the lines, the second line is marked and the first is not. -/
theorem format_queue_spec_witness :
    format_queue ⟨[tA, tB, tC], 1, some VCStatus.playing⟩ =
      String.intercalate "\n" (queue_lines ⟨[tA, tB, tC], 1, some VCStatus.playing⟩) ∧
    lineMarked ((queue_lines ⟨[tA, tB, tC], 1, some VCStatus.playing⟩).get ⟨1, by decide⟩) ∧
    ¬ lineMarked ((queue_lines ⟨[tA, tB, tC], 1, some VCStatus.playing⟩).get ⟨0, by decide⟩) :=
  have h := (format_queue_spec ⟨[tA, tB, tC], 1, some VCStatus.playing⟩).2 (by decide)
  ⟨h.2.1, (h.2.2 1 (by decide)).mpr (by decide),
    fun hm => absurd ((h.2.2 0 (by decide)).mp hm) (by decide)⟩

/-- Claim C10: add_track dereferences the voice client before its idle
check: with no voice client present it raises an unhandled AttributeError
instead of returning a rejected result; with a voice client present that
error cannot occur. -/
theorem add_track_none_voice_client (s : PlayerState) (t : Track) :
    (s.voice_client = none → add_track s t = PyResult.attrError) ∧
    (s.voice_client.isSome → add_track s t ≠ PyResult.attrError) := by
  constructor
  · intro h
    simp [add_track, h]
  · intro h
    rcases Option.isSome_iff_exists.mp h with ⟨st, hst⟩
    cases st <;> simp [add_track, hst, play_next]

/-- Witness for C10: a disconnected player (as left by stop) raises on
add_track; a connected idle player does not raise the attribute error. -/
theorem add_track_none_voice_client_witness :
    add_track ⟨[], -1, none⟩ tA = PyResult.attrError ∧
    add_track ⟨[tA], 0, some VCStatus.playing⟩ tB ≠ PyResult.attrError :=
  ⟨(add_track_none_voice_client ⟨[], -1, none⟩ tA).1 rfl,
    (add_track_none_voice_client ⟨[tA], 0, some VCStatus.playing⟩ tB).2 (by decide)⟩

end MusicPlayer
